import Mathlib

/-!
Shallow embedding of the InstaClaw metering-and-routing kernel (src/app.py).

Conventions: machine timestamps are integers (seconds); Python floats for
costs, latencies and percentages are modelled as rationals; the SQLite
tables `users`, `usage_logs` and `analytics_daily` are lists of records.
The live provider SDKs are modelled as an oracle parameter: `none` means
the API key is not configured, `some (.error e)` means the SDK raised,
`some (.ok r)` means it returned a completion.
-/

/-- One row of the `users` table (the columns the kernel reads/writes). -/
structure User where
  id : String
  api_key : String
  subscription_tier : String
  tokens_included : Int
  tokens_used : Int
  tokens_reset_date : Int
  is_active : Bool
  updated_at : Int
deriving DecidableEq, Repr

/-- One row of the append-only `usage_logs` table. -/
structure UsageLog where
  user_id : String
  provider : String
  model : String
  tokens : Int
  cost : ℚ
  endpoint : String
  response_time : ℚ
  timestamp : Int
deriving DecidableEq, Repr

/-- One row of the `analytics_daily` table, primary key (date, user_id). -/
structure DailyRow where
  date : String
  user_id : String
  total_requests : Int
  total_tokens : Int
  total_cost : ℚ
  avg_response_time : ℚ
deriving DecidableEq, Repr

/-- The SQLite database state seen by the kernel. -/
structure DB where
  users : List User
  usage_logs : List UsageLog
  analytics_daily : List DailyRow
deriving DecidableEq, Repr

/-- Query `SELECT ... FROM users WHERE api_key = ?` (api_key is UNIQUE; first match). -/
def findUserByApiKey (db : DB) (key : String) : Option User :=
  db.users.find? (fun u => u.api_key == key)

/-- Statement `UPDATE users SET ... WHERE api_key = ?`. -/
def updateUsersByApiKey (db : DB) (key : String) (f : User → User) : DB :=
  { db with users := db.users.map (fun u => if u.api_key == key then f u else u) }

/-- Statement `UPDATE users SET ... WHERE id = ?`. -/
def updateUsersById (db : DB) (uid : String) (f : User → User) : DB :=
  { db with users := db.users.map (fun u => if u.id == uid then f u else u) }

/-- Query `SELECT ... FROM analytics_daily WHERE date = ? AND user_id = ?`. -/
def findDaily (db : DB) (date uid : String) : Option DailyRow :=
  db.analytics_daily.find? (fun r => r.date == date && r.user_id == uid)

/-- The dict returned by `call_openai_api` / `call_anthropic_api` / the mocks. -/
structure CallResult where
  response : String
  tokens : Int
  cost : ℚ
  model : String
  response_time : ℚ
  provider : String
deriving DecidableEq, Repr

/-- What a live upstream SDK call produced: completion text, total token
usage reported by the provider, and wall-clock latency. -/
structure LiveResult where
  text : String
  tokens : Int
  response_time : ℚ
deriving DecidableEq, Repr

/-- Live upstream capability as seen by the adapter: `none` = API key not
configured, `some (.error e)` = the SDK raised, `some (.ok r)` = success. -/
abbrev Oracle := Option (Except String LiveResult)

/-- Function `calculate_openai_cost`: tokens times a per-model rate, with a default
rate for unknown models (rates 0.00003, 0.000002, 0.00001 as rationals). -/
def calculate_openai_cost (model : String) (tokens : Int) : ℚ :=
  let rate : ℚ :=
    if model = "gpt-4" then 3/100000
    else if model = "gpt-3.5-turbo" then 2/1000000
    else if model = "gpt-4-turbo" then 1/100000
    else 2/1000000
  tokens * rate

/-- Function `calculate_anthropic_cost` (rates 0.000015, 0.000001, 0.000075). -/
def calculate_anthropic_cost (model : String) (tokens : Int) : ℚ :=
  let rate : ℚ :=
    if model = "claude-3-sonnet-20240229" then 15/1000000
    else if model = "claude-3-haiku-20240307" then 1/1000000
    else if model = "claude-3-opus-20240229" then 75/1000000
    else 15/1000000
  tokens * rate

/-- Python `round(x, 6)`. Python uses round-half-even; every cost produced
here is an exact multiple of 10⁻⁶, so no tie ever arises and half-up agrees. -/
def round6 (q : ℚ) : ℚ := (⌊q * 1000000 + 1/2⌋ : ℚ) / 1000000

/-- Python's `len(prompt.split())`: number of maximal runs of
non-whitespace characters. -/
def wordCountAux : List Char → Bool → Nat
  | [], _ => 0
  | c :: cs, inWord =>
    if c.isWhitespace then wordCountAux cs false
    else (if inWord then 0 else 1) + wordCountAux cs true

def wordCount (s : String) : Nat := wordCountAux s.data false

/-- Function `call_openai_mock`: the deterministic fallback. `tokens` is
`int(len(prompt.split()) * 1.3)`: the value is non-negative, so Python's
truncation is the floor, and flooring n·1.3 is integer division (13·n)/10
(`mul13div10_eq_floor` below). -/
def call_openai_mock (prompt : String) (model : String) : CallResult :=
  let tokens : Int := ((wordCount prompt * 13) / 10 : ℕ)
  let p50 := prompt.take 50
  { response := s!"[MOCK] This is a simulated response from {model} to: '{p50}...'"
    tokens := tokens
    cost := round6 (calculate_openai_cost model tokens)
    model := model
    response_time := 1/2
    provider := "openai" }

/-- Function `call_claude_mock`: the deterministic fallback, multiplier 1.2
(`int(len(prompt.split()) * 1.2)` = (12·n)/10, cf. `mul12div10_eq_floor`),
latency 0.7. -/
def call_claude_mock (prompt : String) (model : String) : CallResult :=
  let tokens : Int := ((wordCount prompt * 12) / 10 : ℕ)
  let p50 := prompt.take 50
  { response := s!"[MOCK] This is a simulated response from {model} to: '{p50}...'"
    tokens := tokens
    cost := round6 (calculate_anthropic_cost model tokens)
    model := model
    response_time := 7/10
    provider := "anthropic" }

/-- Function `call_openai_api`: if no API key is configured, use the mock; on any
exception from the SDK, use the mock; otherwise return the live result. -/
def call_openai_api (live : Oracle) (prompt : String) (model : String) : CallResult :=
  match live with
  | none => call_openai_mock prompt model
  | some (.error _) => call_openai_mock prompt model
  | some (.ok r) =>
    { response := r.text
      tokens := r.tokens
      cost := calculate_openai_cost model r.tokens
      model := model
      response_time := r.response_time
      provider := "openai" }

/-- Function `call_anthropic_api`: same shape as `call_openai_api`. -/
def call_anthropic_api (live : Oracle) (prompt : String) (model : String) : CallResult :=
  match live with
  | none => call_claude_mock prompt model
  | some (.error _) => call_claude_mock prompt model
  | some (.ok r) =>
    { response := r.text
      tokens := r.tokens
      cost := calculate_anthropic_cost model r.tokens
      model := model
      response_time := r.response_time
      provider := "anthropic" }

/-- The account-and-plan snapshot the `require_api_key` decorator attaches to
the request (`request.user_id`, `request.tier`, `request.tokens_included`,
`request.tokens_used`). -/
structure AuthCtx where
  user_id : String
  tier : String
  tokens_included : Int
  tokens_used : Int
deriving DecidableEq, Repr

/-- Thirty days, in seconds: `timedelta(days=30)`. -/
def days30 : Int := 30 * 86400

/-- The `require_api_key` decorator (src/app.py): resolve the account by API
key; reject a missing key and an unknown or inactive account; if
`now > tokens_reset_date`, reset `tokens_used` to 0 and set the reset date to
`now + 30 days` (the billing-period rollover) before the handler runs; expose
the snapshot to the handler. Errors are the 401 responses. -/
def require_api_key (db : DB) (apiKey : Option String) (now : Int) :
    Except String (DB × AuthCtx) :=
  match apiKey with
  | none => .error "API key required"
  | some key =>
    match findUserByApiKey db key with
    | none => .error "Invalid or inactive API key"
    | some u =>
      if !u.is_active then .error "Invalid or inactive API key"
      else if now > u.tokens_reset_date then
        let db' := updateUsersByApiKey db key
          (fun v => { v with tokens_used := 0, tokens_reset_date := now + days30 })
        .ok (db', ⟨u.id, u.subscription_tier, u.tokens_included, 0⟩)
      else
        .ok (db, ⟨u.id, u.subscription_tier, u.tokens_included, u.tokens_used⟩)

/-- The `rate_limit` column of `SUBSCRIPTION_TIERS`, keyed by tier name. -/
def SUBSCRIPTION_TIERS_rate_limit (tier : String) : Option String :=
  if tier = "free" then some "100/hour"
  else if tier = "starter" then some "1000/hour"
  else if tier = "pro" then some "5000/hour"
  else if tier = "enterprise" then some "20000/hour"
  else none

/-- Function `get_rate_limit` (src/app.py): resolve the rate-limit threshold for the
current request from the caller's current tier in the users table, with
"100/hour" as the default for a missing key, an unknown key, or a tier
absent from `SUBSCRIPTION_TIERS`. -/
def get_rate_limit (db : DB) (apiKey : Option String) : String :=
  match apiKey with
  | none => "100/hour"
  | some key =>
    match findUserByApiKey db key with
    | none => "100/hour"
    | some u => (SUBSCRIPTION_TIERS_rate_limit u.subscription_tier).getD "100/hour"

/-- The body of a `/api/chat` request as the handler reads it
(`data.get` with defaults "auto"). -/
structure ChatReq where
  prompt : String
  model : String
  provider : String
deriving DecidableEq, Repr

/-- The JSON payload of a successful `/api/chat` response. -/
structure ChatResponse where
  response : String
  model_used : String
  provider : String
  tokens_used : Int
  cost : ℚ
  response_time : ℚ
  total_tokens_used : Int
  remaining_quota : Int
  quota_percentage : ℚ
deriving DecidableEq, Repr

/-- Outcome of a `/api/chat` request: 401 auth errors, 400 missing prompt,
429 quota exceeded, or a 200 payload. -/
inductive ChatOutcome where
  | authError (msg : String)
  | badRequest
  | quotaExceeded
  | ok (resp : ChatResponse)
deriving DecidableEq, Repr

/-- Whether the outcome is a 200 response. -/
def ChatOutcome.isOk : ChatOutcome → Bool
  | .ok _ => true
  | _ => false

/-- Whether the first character list is a prefix of the second. -/
def charsIsPrefixOf : List Char → List Char → Bool
  | [], _ => true
  | _ :: _, [] => false
  | c :: cs, d :: ds => c == d && charsIsPrefixOf cs ds

/-- Python's `s.startswith(pre)`. -/
def pyStartswith (s pre : String) : Bool := charsIsPrefixOf pre.data s.data

/-- The provider/model routing of the chat handler (the if/elif/else on
`provider` and `model`), calling the matching adapter. -/
def routedCall (oA oC : Oracle) (prompt model provider : String) : CallResult :=
  if provider = "openai" ∨ (provider = "auto" ∧ pyStartswith model "gpt") then
    call_openai_api oA prompt (if model ≠ "auto" then model else "gpt-3.5-turbo")
  else if provider = "anthropic" ∨ (provider = "auto" ∧ pyStartswith model "claude") then
    call_anthropic_api oC prompt (if model ≠ "auto" then model else "claude-3-sonnet-20240229")
  else
    call_openai_api oA prompt "gpt-3.5-turbo"

/-- The Provider Router contract `select(requested_model, requested_provider)`:
the (provider, model) pair the routing above resolves to, as a pure function. -/
def select (model provider : String) : String × String :=
  if provider = "openai" ∨ (provider = "auto" ∧ pyStartswith model "gpt") then
    ("openai", if model ≠ "auto" then model else "gpt-3.5-turbo")
  else if provider = "anthropic" ∨ (provider = "auto" ∧ pyStartswith model "claude") then
    ("anthropic", if model ≠ "auto" then model else "claude-3-sonnet-20240229")
  else
    ("openai", "gpt-3.5-turbo")

/-- Body of the chat handler after authentication (src/app.py `chat`):
missing-prompt check, quota admission gate against the decorator's snapshot,
provider routing and call, usage-log append, token debit
(`UPDATE users SET tokens_used = <snapshot + this call>`), daily-aggregate
upsert (`INSERT OR REPLACE` whose subselects read the pre-statement row),
and the caller-facing JSON. `today` is `datetime.now().strftime('%Y-%m-%d')`. -/
def chatCore (db : DB) (ctx : AuthCtx) (now : Int) (today : String)
    (oA oC : Oracle) (req : ChatReq) : DB × ChatOutcome :=
  if req.prompt = "" then (db, .badRequest)
  else if ctx.tokens_used ≥ ctx.tokens_included then (db, .quotaExceeded)
  else
    let result := routedCall oA oC req.prompt req.model req.provider
    let db1 : DB := { db with usage_logs := db.usage_logs ++
      [⟨ctx.user_id, result.provider, result.model, result.tokens, result.cost,
        "/api/chat", result.response_time, now⟩] }
    let new_usage := ctx.tokens_used + result.tokens
    let db2 := updateUsersById db1 ctx.user_id
      (fun v => { v with tokens_used := new_usage, updated_at := now })
    let prev := findDaily db2 today ctx.user_id
    let row : DailyRow :=
      { date := today
        user_id := ctx.user_id
        total_requests := ((prev.map (fun r => r.total_requests)).getD 0) + 1
        total_tokens := ((prev.map (fun r => r.total_tokens)).getD 0) + result.tokens
        total_cost := ((prev.map (fun r => r.total_cost)).getD 0) + result.cost
        avg_response_time := result.response_time }
    let kept := db2.analytics_daily.filter
      (fun r => !(r.date == today && r.user_id == ctx.user_id))
    let db3 : DB := { db2 with analytics_daily := row :: kept }
    (db3, .ok
      { response := result.response
        model_used := result.model
        provider := result.provider
        tokens_used := result.tokens
        cost := result.cost
        response_time := result.response_time
        total_tokens_used := new_usage
        remaining_quota := max 0 (ctx.tokens_included - new_usage)
        quota_percentage := min 100 ((new_usage : ℚ) / (ctx.tokens_included : ℚ) * 100) })

/-- One `/api/chat` request end to end: the decorator, then the handler body. -/
def chat (db : DB) (apiKey : Option String) (now : Int) (today : String)
    (oA oC : Oracle) (req : ChatReq) : DB × ChatOutcome :=
  match require_api_key db apiKey now with
  | .error e => (db, .authError e)
  | .ok (db1, ctx) => chatCore db1 ctx now today oA oC req

/-- Two concurrent `/api/chat` requests for the same API key under the
interleaving in which both pass the `require_api_key` decorator (each reading
its own `tokens_used` snapshot) before either handler body runs — a schedule
the two gunicorn workers of start.py can produce, since decorator and handler
use separate database connections. Returns the final database and both
outcomes. -/
def chatPairBothAuthFirst (db : DB) (key : String) (now : Int) (today : String)
    (oA oC : Oracle) (req1 req2 : ChatReq) : DB × ChatOutcome × ChatOutcome :=
  match require_api_key db (some key) now with
  | .error e => (db, .authError e, .authError e)
  | .ok (db1, ctx1) =>
    match require_api_key db1 (some key) now with
    | .error e => (db1, .authError e, .authError e)
    | .ok (db2, ctx2) =>
      let r1 := chatCore db2 ctx1 now today oA oC req1
      let r2 := chatCore r1.1 ctx2 now today oA oC req2
      (r2.1, r1.2, r2.2)

/-- A fresh account on the free tier, as `register` creates it
(10000 included tokens, 0 used, active), with reset date 1000000. -/
def demoUser : User :=
  { id := "u1", api_key := "k1", subscription_tier := "free",
    tokens_included := 10000, tokens_used := 0, tokens_reset_date := 1000000,
    is_active := true, updated_at := 0 }

/-- A database holding just `demoUser` and empty usage/analytics tables. -/
def demoDB : DB := { users := [demoUser], usage_logs := [], analytics_daily := [] }

/-- A chat request with model and provider left at their "auto" defaults. -/
def reqAuto (p : String) : ChatReq := { prompt := p, model := "auto", provider := "auto" }

/-- Ten whitespace-separated words: the mock estimates ⌊10·1.3⌋ = 13 tokens. -/
def promptTen : String := "a a a a a a a a a a"

/-- Twenty whitespace-separated words: the mock estimates ⌊20·1.3⌋ = 26 tokens. -/
def promptTwenty : String := "a a a a a a a a a a a a a a a a a a a a"

/-- The account one admitted call away from its ceiling
(tokens_used = tokens_included − 1), for the C2 scenario. -/
def penUser : User := { demoUser with tokens_used := 9999 }

/-- Database holding just `penUser`. -/
def penDB : DB := { users := [penUser], usage_logs := [], analytics_daily := [] }

/-- A live OpenAI upstream whose call spends exactly 5 tokens. -/
def oracleFive : Oracle := some (.ok ⟨"hi", 5, 1/10⟩)

/-- An account that exhausted its quota in a period that has already ended
(reset date 10, full 10000 of 10000 tokens used). -/
def staleUser : User := { demoUser with tokens_used := 10000, tokens_reset_date := 10 }

/-- Database holding just `staleUser`. -/
def staleDB : DB := { users := [staleUser], usage_logs := [], analytics_daily := [] }

/-- An active account that has exactly exhausted its quota inside the current
period (10000 of 10000 tokens used, reset date still ahead). -/
def exhaustedUser : User := { demoUser with tokens_used := 10000 }

/-- Database holding just `exhaustedUser`. -/
def exhaustedDB : DB := { users := [exhaustedUser], usage_logs := [], analytics_daily := [] }

/-- Fidelity of the mock token count: integer division (13·n)/10 is the
floor of n·1.3, i.e. Python's `int(len(prompt.split()) * 1.3)`. -/
theorem mul13div10_eq_floor (n : ℕ) :
    (((n * 13) / 10 : ℕ) : ℤ) = ⌊(n : ℚ) * (13/10)⌋ := by
  rw [show (n : ℚ) * (13/10) = ((n * 13 : ℤ) : ℚ) / ((10 : ℕ) : ℚ) by push_cast; ring]
  rw [Rat.floor_intCast_div_natCast]
  push_cast [Int.natCast_div]
  ring

/-- Fidelity of the Claude mock token count: (12·n)/10 is the floor of n·1.2. -/
theorem mul12div10_eq_floor (n : ℕ) :
    (((n * 12) / 10 : ℕ) : ℤ) = ⌊(n : ℚ) * (12/10)⌋ := by
  rw [show (n : ℚ) * (12/10) = ((n * 12 : ℤ) : ℚ) / ((10 : ℕ) : ℚ) by push_cast; ring]
  rw [Rat.floor_intCast_div_natCast]
  push_cast [Int.natCast_div]
  ring

/-- Helper: the OpenAI adapter always reports provider "openai". -/
theorem call_openai_api_provider (o : Oracle) (p m : String) :
    (call_openai_api o p m).provider = "openai" := by
  cases o with
  | none => rfl
  | some x => cases x <;> rfl

/-- Helper: the OpenAI adapter always echoes the model it was asked for. -/
theorem call_openai_api_model (o : Oracle) (p m : String) :
    (call_openai_api o p m).model = m := by
  cases o with
  | none => rfl
  | some x => cases x <;> rfl

/-- Helper: the Anthropic adapter always reports provider "anthropic". -/
theorem call_anthropic_api_provider (o : Oracle) (p m : String) :
    (call_anthropic_api o p m).provider = "anthropic" := by
  cases o with
  | none => rfl
  | some x => cases x <;> rfl

/-- Helper: the Anthropic adapter always echoes the model it was asked for. -/
theorem call_anthropic_api_model (o : Oracle) (p m : String) :
    (call_anthropic_api o p m).model = m := by
  cases o with
  | none => rfl
  | some x => cases x <;> rfl

/-- C5: when the live upstream is not configured (`none`) or raises any error,
`complete` returns exactly the deterministic fallback result and propagates no
error (the adapters are total functions into `CallResult`, a schema with no
error variant); the fallback's token estimate is ⌊word count · multiplier⌋ and
its cost the rounded rate-table product — functions of prompt and model alone —
its response a fixed-format placeholder, and its latency the fixed nominal
value (0.5 for OpenAI, 0.7 for Anthropic); the degraded result still echoes
provider and model. -/
theorem C5_fallback_deterministic_absorbing (prompt model e1 e2 : String) :
    call_openai_api none prompt model = call_openai_mock prompt model
    ∧ call_openai_api (some (.error e1)) prompt model = call_openai_mock prompt model
    ∧ call_anthropic_api none prompt model = call_claude_mock prompt model
    ∧ call_anthropic_api (some (.error e2)) prompt model = call_claude_mock prompt model
    ∧ (call_openai_mock prompt model).tokens = ((wordCount prompt * 13) / 10 : ℕ)
    ∧ (call_openai_mock prompt model).cost
        = round6 (calculate_openai_cost model (((wordCount prompt * 13) / 10 : ℕ) : ℤ))
    ∧ (call_claude_mock prompt model).tokens = ((wordCount prompt * 12) / 10 : ℕ)
    ∧ (call_claude_mock prompt model).cost
        = round6 (calculate_anthropic_cost model (((wordCount prompt * 12) / 10 : ℕ) : ℤ))
    ∧ (call_openai_mock prompt model).response_time = 1/2
    ∧ (call_claude_mock prompt model).response_time = 7/10
    ∧ (call_openai_mock prompt model).provider = "openai"
    ∧ (call_openai_mock prompt model).model = model
    ∧ (let p50 := prompt.take 50
       (call_openai_mock prompt model).response
         = s!"[MOCK] This is a simulated response from {model} to: '{p50}...'") :=
  ⟨rfl, rfl, rfl, rfl, rfl, rfl, rfl, rfl, rfl, rfl, rfl, rfl, rfl⟩

/-- C6: provider routing is the pure deterministic function `select` of
(requested_model, requested_provider): the three pinned selections hold; a
model with neither known family prefix under provider "auto" routes to the
cost-effective default ("openai", "gpt-3.5-turbo"); an explicitly named
provider is honored, substituting its designated default model when the model
is "auto"; and the chat handler's routed call reports exactly the provider and
model `select` resolves, for every oracle. -/
theorem C6_router_deterministic :
    select "gpt-4" "auto" = ("openai", "gpt-4")
    ∧ select "claude-3-haiku-20240307" "auto" = ("anthropic", "claude-3-haiku-20240307")
    ∧ select "auto" "auto" = ("openai", "gpt-3.5-turbo")
    ∧ (∀ m : String, pyStartswith m "gpt" = false → pyStartswith m "claude" = false →
        select m "auto" = ("openai", "gpt-3.5-turbo"))
    ∧ select "auto" "openai" = ("openai", "gpt-3.5-turbo")
    ∧ select "auto" "anthropic" = ("anthropic", "claude-3-sonnet-20240229")
    ∧ (∀ m : String, m ≠ "auto" →
        select m "openai" = ("openai", m) ∧ select m "anthropic" = ("anthropic", m))
    ∧ (∀ (oA oC : Oracle) (prompt m pr : String),
        (routedCall oA oC prompt m pr).provider = (select m pr).1
        ∧ (routedCall oA oC prompt m pr).model = (select m pr).2) := by
  refine ⟨by decide, by decide, by decide, ?_, by decide, by decide, ?_, ?_⟩
  · intro m h1 h2
    simp +decide [select, h1, h2]
  · intro m h
    constructor <;> simp +decide [select, h]
  · intro oA oC prompt m pr
    by_cases h1 : pr = "openai" ∨ (pr = "auto" ∧ pyStartswith m "gpt" = true)
    · simp only [routedCall, select, if_pos h1]
      exact ⟨call_openai_api_provider .., call_openai_api_model ..⟩
    · by_cases h2 : pr = "anthropic" ∨ (pr = "auto" ∧ pyStartswith m "claude" = true)
      · simp only [routedCall, select, if_neg h1, if_pos h2]
        exact ⟨call_anthropic_api_provider .., call_anthropic_api_model ..⟩
      · simp only [routedCall, select, if_neg h1, if_neg h2]
        exact ⟨call_openai_api_provider .., call_openai_api_model ..⟩

/-- Witness for C6 at concrete inputs: an unprefixed model under "auto"
routes to the default, and an explicit provider is honored. -/
theorem C6_router_deterministic_witness :
    (pyStartswith "llama-2-7b" "gpt" = false ∧ pyStartswith "llama-2-7b" "claude" = false
      ∧ select "llama-2-7b" "auto" = ("openai", "gpt-3.5-turbo"))
    ∧ ("gpt-4" ≠ "auto" ∧ select "gpt-4" "anthropic" = ("anthropic", "gpt-4")) :=
  ⟨⟨by decide, by decide,
      C6_router_deterministic.2.2.2.1 "llama-2-7b" (by decide) (by decide)⟩,
    ⟨by decide, (C6_router_deterministic.2.2.2.2.2.2.1 "gpt-4" (by decide)).2⟩⟩

/-- C9: the rate-limit threshold is resolved freshly per request from the
caller's current tier: no credential, an unknown credential, and an
unrecognized tier all resolve to the fixed default "100/hour"; a known
account resolves to its tier's `rate_limit`; and a tier change between two
requests changes the threshold the later request resolves (demoUser on
"free" resolves "100/hour", the same key after an upgrade to "pro" resolves
"5000/hour"), with no restart — `get_rate_limit` reads only the database
passed for the current request. -/
theorem C9_rate_limit_resolved_per_request (db : DB) (key : String) (u : User) :
    get_rate_limit db none = "100/hour"
    ∧ (findUserByApiKey db key = none → get_rate_limit db (some key) = "100/hour")
    ∧ (findUserByApiKey db key = some u →
        get_rate_limit db (some key)
          = (SUBSCRIPTION_TIERS_rate_limit u.subscription_tier).getD "100/hour")
    ∧ (findUserByApiKey db key = some u →
        SUBSCRIPTION_TIERS_rate_limit u.subscription_tier = none →
        get_rate_limit db (some key) = "100/hour")
    ∧ get_rate_limit demoDB (some "k1") = "100/hour"
    ∧ get_rate_limit (updateUsersByApiKey demoDB "k1"
        (fun v => { v with subscription_tier := "pro" })) (some "k1") = "5000/hour" := by
  refine ⟨rfl, ?_, ?_, ?_, by decide, by decide⟩
  · intro h
    simp [get_rate_limit, h]
  · intro h
    simp [get_rate_limit, h]
  · intro h h2
    simp [get_rate_limit, h, h2]

/-- Witness for C9: the threshold of the demo account resolves through its
stored tier, and an unknown key falls back to the default. -/
theorem C9_rate_limit_witness :
    (findUserByApiKey demoDB "k1" = some demoUser
      ∧ get_rate_limit demoDB (some "k1")
          = (SUBSCRIPTION_TIERS_rate_limit demoUser.subscription_tier).getD "100/hour")
    ∧ (findUserByApiKey demoDB "nope" = none
      ∧ get_rate_limit demoDB (some "nope") = "100/hour") :=
  ⟨⟨by decide, (C9_rate_limit_resolved_per_request demoDB "k1" demoUser).2.2.1 (by decide)⟩,
    ⟨by decide, (C9_rate_limit_resolved_per_request demoDB "nope" demoUser).2.1 (by decide)⟩⟩

/-- C2: for an authenticated request (decorator snapshot `ctx`) with a
non-empty prompt, the handler denies with QuotaExceeded exactly when the
pre-call counter has reached the ceiling (`ctx.tokens_used ≥
ctx.tokens_included`); on denial the outcome and final state are the same for
every oracle — no provider call — and no handler write occurs; strictly below
the ceiling the request is admitted whatever the call will cost. At
tokens_used = tokens_included − 1 = 9999, a call costing 5 tokens is admitted
(usage becomes 10004) and the next call is denied. -/
theorem C2_admission_pre_call_gate
    (db db1 : DB) (key : String) (now : Int) (today : String)
    (oA oC : Oracle) (req : ChatReq) (ctx : AuthCtx)
    (hauth : require_api_key db (some key) now = .ok (db1, ctx))
    (hp : req.prompt ≠ "") :
    (((chat db (some key) now today oA oC req).2 = .quotaExceeded) ↔
        ctx.tokens_included ≤ ctx.tokens_used)
    ∧ (ctx.tokens_included ≤ ctx.tokens_used →
        ∀ oA2 oC2, chat db (some key) now today oA2 oC2 req = (db1, .quotaExceeded))
    ∧ (ctx.tokens_used < ctx.tokens_included →
        ((chat db (some key) now today oA oC req).2).isOk = true)
    ∧ ((let first := chat penDB (some "k1") 5 "2026-10-12" oracleFive none (reqAuto "hello")
        let second := chat first.1 (some "k1") 5 "2026-10-12" oracleFive none (reqAuto "hello")
        first.2.isOk = true
          ∧ (findUserByApiKey first.1 "k1").map User.tokens_used = some 10004
          ∧ second.2 = .quotaExceeded) : Prop) := by
  refine ⟨?_, ?_, ?_, by decide⟩
  · by_cases hq : ctx.tokens_included ≤ ctx.tokens_used
    · simp [chat, hauth, chatCore, hp, hq]
    · simp [chat, hauth, chatCore, hp, hq]
  · intro hq oA2 oC2
    simp [chat, hauth, chatCore, hp, hq]
  · intro hq
    have hq' : ¬ ctx.tokens_included ≤ ctx.tokens_used := not_le.mpr hq
    simp [chat, hauth, chatCore, hp, hq', ChatOutcome.isOk]

/-- Witness for C2: the demo account (0 of 10000 tokens used) is admitted. -/
theorem C2_admission_witness :
    ((chat demoDB (some "k1") 5 "2026-10-12" none none (reqAuto "hello")).2).isOk = true :=
  (C2_admission_pre_call_gate demoDB demoDB "k1" 5 "2026-10-12" none none (reqAuto "hello")
    ⟨"u1", "free", 10000, 0⟩ rfl (by decide)).2.2.1 (by decide)

/-- Helper: `find?` by API key after an update keyed on the same API key, when
the update preserves the key, finds the updated row. -/
theorem find?_after_update (l : List User) (key : String) (f : User → User)
    (hf : ∀ v, (f v).api_key = v.api_key) :
    (l.map (fun u => if u.api_key == key then f u else u)).find? (fun u => u.api_key == key)
      = (l.find? (fun u => u.api_key == key)).map f := by
  induction l with
  | nil => rfl
  | cons a l ih =>
    simp only [List.map_cons]
    by_cases h : (a.api_key == key) = true
    · rw [if_pos h]
      rw [List.find?_cons_of_pos _ (by rw [hf]; exact h)]
      rw [show List.find? (fun u => u.api_key == key) (a :: l) = some a from
        List.find?_cons_of_pos _ h]
      rfl
    · rw [if_neg h]
      rw [show List.find? (fun u => u.api_key == key)
            (a :: List.map (fun u => if u.api_key == key then f u else u) l)
          = List.find? (fun u => u.api_key == key)
              (List.map (fun u => if u.api_key == key then f u else u) l) from
        List.find?_cons_of_neg _ h]
      rw [show List.find? (fun u => u.api_key == key) (a :: l)
          = List.find? (fun u => u.api_key == key) l from
        List.find?_cons_of_neg _ h]
      exact ih

/-- C3: for an authenticated request with `now` past the reset date, the
decorator resets `tokens_used` to 0 and moves the reset date to now + 30 days
— in the stored row and in the snapshot the admission check will read — before
the handler's quota check runs; hence an account with any positive quota and a
stale period boundary is admitted, never denied solely for the stale boundary. -/
theorem C3_rollover_before_admission
    (db : DB) (key : String) (now : Int) (today : String)
    (oA oC : Oracle) (req : ChatReq) (u : User)
    (hu : findUserByApiKey db key = some u) (hact : u.is_active = true)
    (hroll : u.tokens_reset_date < now) :
    (require_api_key db (some key) now
        = .ok (updateUsersByApiKey db key
            (fun v => { v with tokens_used := 0, tokens_reset_date := now + days30 }),
          ⟨u.id, u.subscription_tier, u.tokens_included, 0⟩))
    ∧ (findUserByApiKey (updateUsersByApiKey db key
          (fun v => { v with tokens_used := 0, tokens_reset_date := now + days30 })) key
        = some { u with tokens_used := 0, tokens_reset_date := now + days30 })
    ∧ (0 < u.tokens_included → req.prompt ≠ "" →
        ((chat db (some key) now today oA oC req).2).isOk = true) := by
  have hup : require_api_key db (some key) now
      = .ok (updateUsersByApiKey db key
          (fun v => { v with tokens_used := 0, tokens_reset_date := now + days30 }),
        ⟨u.id, u.subscription_tier, u.tokens_included, 0⟩) := by
    simp [require_api_key, hu, hact, hroll]
  have hfound : findUserByApiKey (updateUsersByApiKey db key
        (fun v => { v with tokens_used := 0, tokens_reset_date := now + days30 })) key
      = some { u with tokens_used := 0, tokens_reset_date := now + days30 } := by
    unfold findUserByApiKey updateUsersByApiKey
    rw [find?_after_update db.users key
      (fun v => { v with tokens_used := 0, tokens_reset_date := now + days30 })
      (fun v => rfl)]
    rw [show db.users.find? (fun v => v.api_key == key) = some u from hu]
    rfl
  refine ⟨hup, hfound, ?_⟩
  intro hq hp
  simp [chat, hup, chatCore, hp, ChatOutcome.isOk, not_le.mpr hq]

/-- Witness for C3: at time 100 (past the stale boundary) the exhausted
account is rolled over and admitted rather than denied. -/
theorem C3_rollover_witness :
    ((chat staleDB (some "k1") 100 "2026-10-12" none none (reqAuto "hello")).2).isOk = true :=
  (C3_rollover_before_admission staleDB "k1" 100 "2026-10-12" none none (reqAuto "hello")
    staleUser (by decide) (by decide) (by decide)).2.2 (by decide) (by decide)

/-- C7: every admitted, completed request returns the routed call's text,
model, provider, this-call tokens, cost and response time, with
`total_tokens_used` = the decorator snapshot plus this call's tokens,
`remaining_quota` = max(0, included − total) and `quota_percentage` =
min(100, total/included·100). -/
theorem C7_response_quota_fields
    (db db1 : DB) (key : String) (now : Int) (today : String)
    (oA oC : Oracle) (req : ChatReq) (ctx : AuthCtx)
    (hauth : require_api_key db (some key) now = .ok (db1, ctx))
    (hp : req.prompt ≠ "") (hadm : ctx.tokens_used < ctx.tokens_included) :
    (chat db (some key) now today oA oC req).2 =
      .ok { response := (routedCall oA oC req.prompt req.model req.provider).response
            model_used := (routedCall oA oC req.prompt req.model req.provider).model
            provider := (routedCall oA oC req.prompt req.model req.provider).provider
            tokens_used := (routedCall oA oC req.prompt req.model req.provider).tokens
            cost := (routedCall oA oC req.prompt req.model req.provider).cost
            response_time := (routedCall oA oC req.prompt req.model req.provider).response_time
            total_tokens_used :=
              ctx.tokens_used + (routedCall oA oC req.prompt req.model req.provider).tokens
            remaining_quota := max 0 (ctx.tokens_included -
              (ctx.tokens_used + (routedCall oA oC req.prompt req.model req.provider).tokens))
            quota_percentage := min 100
              (((ctx.tokens_used + (routedCall oA oC req.prompt req.model req.provider).tokens : Int) : ℚ)
                / (ctx.tokens_included : ℚ) * 100) } := by
  simp [chat, hauth, chatCore, hp, not_le.mpr hadm]

/-- Witness for C7: the demo account's first request succeeds with the
response payload characterized by `C7_response_quota_fields`. -/
theorem C7_response_quota_witness :
    ∃ resp, (chat demoDB (some "k1") 5 "2026-10-12" none none (reqAuto "hello")).2 = .ok resp :=
  ⟨_, C7_response_quota_fields demoDB demoDB "k1" 5 "2026-10-12" none none (reqAuto "hello")
    ⟨"u1", "free", 10000, 0⟩ rfl (by decide) (by decide)⟩

/-- C10: with the stored account's `tokens_used` non-negative, an admitted
request forces `tokens_included > 0` — the admission gate (`used ≥ included`
denies) screens out `tokens_included = 0` before the `quota_percentage`
division — and an account with `tokens_included = 0` can never reach the
200 path. -/
theorem C10_quota_percentage_division_safe
    (db : DB) (key : String) (now : Int) (today : String) (oA oC : Oracle)
    (req : ChatReq) (u : User)
    (hu : findUserByApiKey db key = some u) (hnn : 0 ≤ u.tokens_used) :
    (∀ resp, (chat db (some key) now today oA oC req).2 = .ok resp → 0 < u.tokens_included)
    ∧ (u.tokens_included = 0 →
        ∀ resp, (chat db (some key) now today oA oC req).2 ≠ .ok resp) := by
  constructor
  · intro resp hok
    by_cases hact : u.is_active = true
    · by_cases hroll : u.tokens_reset_date < now
      · by_cases hp : req.prompt = ""
        · simp [chat, require_api_key, hu, hact, hroll, chatCore, hp] at hok
        · by_cases hq : u.tokens_included ≤ 0
          · simp [chat, require_api_key, hu, hact, hroll, chatCore, hp, hq] at hok
          · exact not_le.mp hq
      · by_cases hp : req.prompt = ""
        · simp [chat, require_api_key, hu, hact, hroll, chatCore, hp] at hok
        · by_cases hq : u.tokens_included ≤ u.tokens_used
          · simp [chat, require_api_key, hu, hact, hroll, chatCore, hp, hq] at hok
          · exact lt_of_le_of_lt hnn (not_le.mp hq)
    · simp [chat, require_api_key, hu, hact] at hok
  · intro hzero resp hok
    by_cases hact : u.is_active = true
    · by_cases hroll : u.tokens_reset_date < now
      · by_cases hp : req.prompt = ""
        · simp [chat, require_api_key, hu, hact, hroll, chatCore, hp] at hok
        · simp [chat, require_api_key, hu, hact, hroll, chatCore, hp, hzero] at hok
      · by_cases hp : req.prompt = ""
        · simp [chat, require_api_key, hu, hact, hroll, chatCore, hp] at hok
        · have hq : u.tokens_included ≤ u.tokens_used := hzero ▸ hnn
          simp [chat, require_api_key, hu, hact, hroll, chatCore, hp, hq] at hok
    · simp [chat, require_api_key, hu, hact] at hok

/-- Witness for C10: the admitted demo request forces a positive ceiling. -/
theorem C10_quota_percentage_witness : (0 : Int) < demoUser.tokens_included :=
  (C10_quota_percentage_division_safe demoDB "k1" 5 "2026-10-12" none none
    (reqAuto "hello") demoUser (by decide) (by decide)).1 _ rfl

/-- C8: a request rejected for authentication (missing key, unknown key,
inactive account) or for quota leaves the database — users, usage_logs,
analytics_daily — exactly as it was: no usage record, no aggregate row, no
debit; and the outcome and state of a denied request are identical for every
oracle, so no provider call occurs. (For quota denial the account's
`tokens_included` is positive, as for every account this code provisions;
a quota-denied request then cannot have rolled over, so not even the
decorator wrote.) -/
theorem C8_denied_requests_write_nothing
    (db : DB) (now : Int) (today : String) (oA oC : Oracle) (req : ChatReq) :
    (chat db none now today oA oC req = (db, .authError "API key required"))
    ∧ (∀ key, findUserByApiKey db key = none →
        chat db (some key) now today oA oC req
          = (db, .authError "Invalid or inactive API key"))
    ∧ (∀ key u, findUserByApiKey db key = some u → u.is_active = false →
        chat db (some key) now today oA oC req
          = (db, .authError "Invalid or inactive API key"))
    ∧ (∀ key u, findUserByApiKey db key = some u → u.is_active = true →
        0 < u.tokens_included →
        (chat db (some key) now today oA oC req).2 = .quotaExceeded →
        chat db (some key) now today oA oC req = (db, .quotaExceeded)
          ∧ ∀ oA2 oC2, chat db (some key) now today oA2 oC2 req
              = chat db (some key) now today oA oC req) := by
  refine ⟨rfl, ?_, ?_, ?_⟩
  · intro key h
    simp [chat, require_api_key, h]
  · intro key u hu hact
    simp [chat, require_api_key, hu, hact]
  · intro key u hu hact hpos hout
    by_cases hroll : u.tokens_reset_date < now
    · by_cases hp : req.prompt = ""
      · simp [chat, require_api_key, hu, hact, hroll, chatCore, hp] at hout
      · have hq : ¬ u.tokens_included ≤ (0 : Int) := not_le.mpr hpos
        simp [chat, require_api_key, hu, hact, hroll, chatCore, hp, hq] at hout
    · by_cases hp : req.prompt = ""
      · simp [chat, require_api_key, hu, hact, hroll, chatCore, hp] at hout
      · by_cases hq : u.tokens_included ≤ u.tokens_used
        · constructor
          · simp [chat, require_api_key, hu, hact, hroll, chatCore, hp, hq]
          · intro oA2 oC2
            simp [chat, require_api_key, hu, hact, hroll, chatCore, hp, hq]
        · simp [chat, require_api_key, hu, hact, hroll, chatCore, hp, hq] at hout

/-- Witness for C8: an unknown key is rejected with the state untouched, and
the exhausted account's quota denial writes nothing. -/
theorem C8_denied_requests_witness :
    (chat demoDB (some "nope") 5 "2026-10-12" none none (reqAuto "hello")
      = (demoDB, .authError "Invalid or inactive API key"))
    ∧ (chat exhaustedDB (some "k1") 5 "2026-10-12" none none (reqAuto "hello")
      = (exhaustedDB, .quotaExceeded)) :=
  ⟨(C8_denied_requests_write_nothing demoDB 5 "2026-10-12" none none
      (reqAuto "hello")).2.1 "nope" (by decide),
    ((C8_denied_requests_write_nothing exhaustedDB 5 "2026-10-12" none none
      (reqAuto "hello")).2.2.2 "k1" exhaustedUser (by decide) (by decide) (by decide)
      rfl).1⟩

/-- C1: the debit is not serialized per account. Sequentially, two admitted
requests spending 13 and 26 tokens leave `tokens_used` = 0 + 13 + 26 = 39;
but under the interleaving where both requests pass the decorator (reading
snapshot 0) before either handler body writes — realizable with the two
gunicorn workers start.py launches — the blind write
`UPDATE users SET tokens_used = <snapshot + this call>` makes the final
counter 26: the first debit is lost. -/
theorem C1_concurrent_debit_lost :
    ((let s1 := chat demoDB (some "k1") 5 "2026-10-12" none none (reqAuto promptTen)
      let s2 := chat s1.1 (some "k1") 5 "2026-10-12" none none (reqAuto promptTwenty)
      (findUserByApiKey s2.1 "k1").map User.tokens_used = some 39
        ∧ s1.2.isOk = true ∧ s2.2.isOk = true) : Prop)
    ∧ ((let r := chatPairBothAuthFirst demoDB "k1" 5 "2026-10-12" none none
          (reqAuto promptTen) (reqAuto promptTwenty)
        (findUserByApiKey r.1 "k1").map User.tokens_used = some 26
          ∧ r.2.1.isOk = true ∧ r.2.2.isOk = true) : Prop)
    ∧ (26 : Int) ≠ 39 :=
  ⟨by decide, by decide, by decide⟩

/-- C4: the daily-aggregate upsert increments the request count, adds the
call's tokens and cost to the sums — but writes the *current call's* latency
into `avg_response_time` instead of the running average. After an OpenAI mock
call (13 tokens, cost 26·10⁻⁶, latency 0.5) and an Anthropic mock call
(24 tokens, cost 24·10⁻⁶, latency 0.7) on the same day, the row holds
requests = 2, tokens = 37, cost = 50·10⁻⁶, and avg_response_time = 0.7,
while the simple running average of the day's two latencies is 0.6. -/
theorem C4_daily_aggregate_stores_last_latency :
    ((let s1 := chat demoDB (some "k1") 5 "2026-10-12" none none (reqAuto promptTen)
      let s2 := chat s1.1 (some "k1") 5 "2026-10-12" none none
        ⟨promptTwenty, "claude-3-haiku-20240307", "auto"⟩
      (findDaily s2.1 "2026-10-12" "u1").map DailyRow.total_requests = some 2
        ∧ (findDaily s2.1 "2026-10-12" "u1").map DailyRow.total_tokens = some 37
        ∧ (findDaily s2.1 "2026-10-12" "u1").map DailyRow.total_cost
            = some (0 + round6 (calculate_openai_cost "gpt-3.5-turbo"
                  (((wordCount promptTen * 13) / 10 : ℕ) : ℤ))
                + round6 (calculate_anthropic_cost "claude-3-haiku-20240307"
                  (((wordCount promptTwenty * 12) / 10 : ℕ) : ℤ)))
        ∧ (findDaily s2.1 "2026-10-12" "u1").map DailyRow.avg_response_time
            = some (7/10)) : Prop)
    ∧ (0 + round6 (calculate_openai_cost "gpt-3.5-turbo"
          (((wordCount promptTen * 13) / 10 : ℕ) : ℤ))
        + round6 (calculate_anthropic_cost "claude-3-haiku-20240307"
          (((wordCount promptTwenty * 12) / 10 : ℕ) : ℤ)) : ℚ) = 50/1000000
    ∧ ((1 : ℚ)/2 + 7/10) / 2 = 3/5
    ∧ (7 : ℚ)/10 ≠ 3/5 := by
  have hw1 : wordCount promptTen = 10 := by decide
  have hw2 : wordCount promptTwenty = 20 := by decide
  refine ⟨⟨by decide, by decide, rfl, rfl⟩, ?_, by norm_num, by norm_num⟩
  norm_num +decide [hw1, hw2, round6, calculate_openai_cost, calculate_anthropic_cost]
